import Mathlib

/-!
Verification of the `garp_sdk` Python client (`sdk-py/garp_sdk/client.py`,
`types.py`) against its specification.  The JSON data flowing through the
client is modelled by an inductive `Json` type (Python's `json` module
parses integers with arbitrary precision, so numbers are `Int`), and each
client operation is embedded as a pure function from the decoded HTTP
response body to its outcome.
-/

/-- JSON values as produced by Python's `json` module.  Numeric literals in
the claims are integers, so numbers are modelled as unbounded `Int`
(Python ints are arbitrary precision). -/
inductive Json where
  | null : Json
  | bool : Bool → Json
  | num : Int → Json
  | str : String → Json
  | arr : List Json → Json
  | obj : List (String × Json) → Json

/-- Key lookup in a JSON object's field list (Python `dict` keys are unique,
so first-match lookup coincides with dict indexing). -/
def lookupField : List (String × Json) → String → Option Json
  | [], _ => none
  | (k, v) :: rest, key => if k == key then some v else lookupField rest key

/-- Python's `key in dict` membership test on a field list. -/
def hasKey (fields : List (String × Json)) (key : String) : Bool :=
  fields.any (fun p => p.1 == key)

/-- Field lookup on a JSON value that is expected to be an object. -/
def envelopeField (v : Json) (key : String) : Option Json :=
  match v with
  | Json.obj fields => lookupField fields key
  | _ => none

/-- Python truthiness of a JSON value, as used by `if not result.get("success")`:
`None`, `False`, `0`, `""`, `[]` and `{}` are falsy. -/
def pyTruthy : Json → Bool
  | Json.null => false
  | Json.bool b => b
  | Json.num n => n != 0
  | Json.str s => !s.isEmpty
  | Json.arr xs => !xs.isEmpty
  | Json.obj fields => !fields.isEmpty

/-- An RPC call as supplied by the caller: a method name and the optional
positional parameter list (`params=None` in Python is `none` here). -/
structure RpcCall where
  method : String
  params : Option (List Json)

/-- The request payload built by `GarpClient._rpc` (client.py lines 21-26):
`{"jsonrpc": "2.0", "id": 1, "method": method, "params": params or []}`.
The id is the literal constant `1`, and `params or []` turns an absent
parameter list into the empty array, so the `params` key is always present. -/
def rpcPayload (method : String) (params : Option (List Json)) : Json :=
  Json.obj [("jsonrpc", Json.str "2.0"), ("id", Json.num 1),
            ("method", Json.str method), ("params", Json.arr (params.getD []))]

/-- The payload entry built for index `i` inside `GarpClient.batch`
(client.py lines 186-191): `{"jsonrpc": "2.0", "id": i + 1,
"method": call["method"], "params": call.get("params", [])}`. -/
def batchEnvelope (i : Nat) (c : RpcCall) : Json :=
  Json.obj [("jsonrpc", Json.str "2.0"), ("id", Json.num (Int.ofNat (i + 1))),
            ("method", Json.str c.method), ("params", Json.arr (c.params.getD []))]

/-- The `for i, call in enumerate(calls)` loop of `GarpClient.batch`,
with `i` the running index. -/
def batchPayloadFrom : Nat → List RpcCall → List Json
  | _, [] => []
  | i, c :: cs => batchEnvelope i c :: batchPayloadFrom (i + 1) cs

/-- The full batch request payload built by `GarpClient.batch`. -/
def batchPayload (calls : List RpcCall) : List Json :=
  batchPayloadFrom 0 calls

/-- Failure of the response-processing tail of `GarpClient._rpc`. -/
inductive RpcFail where
  | rpcError : Json → RpcFail
  | nonObject : RpcFail

/-- Response handling of `GarpClient._rpc` (client.py lines 35-39) applied to
the decoded body: `if "error" in result: raise Exception(...)` carrying
`result["error"]` verbatim, `else return result.get("result")` (absent key
gives Python `None`, i.e. JSON null).  A body that is not a JSON object does
not follow dict semantics for `in` / `.get` and is collapsed to `nonObject`. -/
def rpcDecode (body : Json) : Except RpcFail Json :=
  match body with
  | Json.obj fields =>
      if hasKey fields "error" then
        Except.error (RpcFail.rpcError ((lookupField fields "error").getD Json.null))
      else
        Except.ok ((lookupField fields "result").getD Json.null)
  | _ => Except.error RpcFail.nonObject

/-- The list comprehension `[r.get("result") for r in results]` closing
`GarpClient.batch` (client.py line 201): each element's `result` field is
extracted positionally (absent key gives JSON null); `none` models the
`AttributeError` escaping when an element is not a dict. -/
def batchDecode : List Json → Option (List Json)
  | [] => some []
  | r :: rest =>
    match r with
    | Json.obj fields =>
        match batchDecode rest with
        | some vs => some (((lookupField fields "result").getD Json.null) :: vs)
        | none => none
    | _ => none

/-- A Python `TypeError` raised during dataclass construction from kwargs:
unpacking a non-mapping with `**`, a missing required argument (the message
names the field), or an unexpected keyword argument (the message names the
field).  All three are unstructured `TypeError`s in Python. -/
inductive PyTypeError where
  | notAMapping : PyTypeError
  | missingArg : String → PyTypeError
  | unexpectedKw : String → PyTypeError

/-- The `BlockInfo` dataclass (types.py lines 12-19).  Python does not enforce
the field annotations when constructing via `BlockInfo(**result)`, so every
field holds the raw JSON value assigned to it; optional fields default to
`None` (JSON null). -/
structure BlockInfo where
  slot : Json
  hash : Json
  parent_hash : Json := Json.null
  timestamp_ms : Json := Json.null
  leader : Json := Json.null
  transactions : Json := Json.null

/-- The `TransactionInfo` dataclass (types.py lines 22-28). -/
structure TransactionInfo where
  id : Json
  submitter : Json := Json.null
  status : Json := Json.null
  created_at : Json := Json.null
  error : Json := Json.null

/-- The `SimulationResult` dataclass (client.py lines 7-11). -/
structure SimulationResult where
  ok : Json
  logs : Json := Json.null
  error : Json := Json.null

/-- The keyword parameters accepted by `BlockInfo.__init__`. -/
def blockInfoKeys : List String :=
  ["slot", "hash", "parent_hash", "timestamp_ms", "leader", "transactions"]

/-- The keyword parameters accepted by `TransactionInfo.__init__`. -/
def transactionInfoKeys : List String :=
  ["id", "submitter", "status", "created_at", "error"]

/-- The keyword parameters accepted by `SimulationResult.__init__`. -/
def simulationResultKeys : List String :=
  ["ok", "logs", "error"]

/-- `BlockInfo(**kw)`: an unknown key raises `TypeError: unexpected keyword
argument`, a missing required field raises `TypeError: missing ... 'slot'`
(or `'hash'`); otherwise fields are bound with `None` defaults. -/
def mkBlockInfo (kw : List (String × Json)) : Except PyTypeError BlockInfo :=
  match kw.find? (fun p => !(blockInfoKeys.contains p.1)) with
  | some p => Except.error (PyTypeError.unexpectedKw p.1)
  | none =>
    match lookupField kw "slot" with
    | none => Except.error (PyTypeError.missingArg "slot")
    | some slot =>
      match lookupField kw "hash" with
      | none => Except.error (PyTypeError.missingArg "hash")
      | some hash =>
        Except.ok { slot := slot, hash := hash,
                    parent_hash := (lookupField kw "parent_hash").getD Json.null,
                    timestamp_ms := (lookupField kw "timestamp_ms").getD Json.null,
                    leader := (lookupField kw "leader").getD Json.null,
                    transactions := (lookupField kw "transactions").getD Json.null }

/-- `TransactionInfo(**kw)`, with `id` the only required field. -/
def mkTransactionInfo (kw : List (String × Json)) : Except PyTypeError TransactionInfo :=
  match kw.find? (fun p => !(transactionInfoKeys.contains p.1)) with
  | some p => Except.error (PyTypeError.unexpectedKw p.1)
  | none =>
    match lookupField kw "id" with
    | none => Except.error (PyTypeError.missingArg "id")
    | some i =>
      Except.ok { id := i,
                  submitter := (lookupField kw "submitter").getD Json.null,
                  status := (lookupField kw "status").getD Json.null,
                  created_at := (lookupField kw "created_at").getD Json.null,
                  error := (lookupField kw "error").getD Json.null }

/-- `SimulationResult(**kw)`, with `ok` the only required field. -/
def mkSimulationResult (kw : List (String × Json)) : Except PyTypeError SimulationResult :=
  match kw.find? (fun p => !(simulationResultKeys.contains p.1)) with
  | some p => Except.error (PyTypeError.unexpectedKw p.1)
  | none =>
    match lookupField kw "ok" with
    | none => Except.error (PyTypeError.missingArg "ok")
    | some okv =>
      Except.ok { ok := okv,
                  logs := (lookupField kw "logs").getD Json.null,
                  error := (lookupField kw "error").getD Json.null }

/-- An exception escaping a public client operation. -/
inductive CallError where
  | rpc : Json → CallError
  | badResponse : CallError
  | typeError : PyTypeError → CallError
  | bridgeError : Json → CallError
  | keyError : CallError

/-- `GarpClient.get_block_by_slot` (client.py lines 49-53), as a function of
the decoded RPC response body: a `null` result short-circuits to `None`
before mapping, otherwise `BlockInfo(**result)` is constructed (a
non-mapping result makes `**` raise `TypeError`). -/
def get_block_by_slot (resp : Json) : Except CallError (Option BlockInfo) :=
  match rpcDecode resp with
  | Except.error (RpcFail.rpcError e) => Except.error (CallError.rpc e)
  | Except.error RpcFail.nonObject => Except.error CallError.badResponse
  | Except.ok Json.null => Except.ok none
  | Except.ok (Json.obj kw) => ((mkBlockInfo kw).mapError CallError.typeError).map some
  | Except.ok _ => Except.error (CallError.typeError PyTypeError.notAMapping)

/-- `GarpClient.get_block_by_hash` (client.py lines 55-59): same response
handling as `get_block_by_slot` (only the request parameter differs). -/
def get_block_by_hash (resp : Json) : Except CallError (Option BlockInfo) :=
  get_block_by_slot resp

/-- `GarpClient.get_transaction` (client.py lines 62-66): `null` result
short-circuits to `None`, otherwise `TransactionInfo(**result)`. -/
def get_transaction (resp : Json) : Except CallError (Option TransactionInfo) :=
  match rpcDecode resp with
  | Except.error (RpcFail.rpcError e) => Except.error (CallError.rpc e)
  | Except.error RpcFail.nonObject => Except.error CallError.badResponse
  | Except.ok Json.null => Except.ok none
  | Except.ok (Json.obj kw) => ((mkTransactionInfo kw).mapError CallError.typeError).map some
  | Except.ok _ => Except.error (CallError.typeError PyTypeError.notAMapping)

/-- `GarpClient.simulate_transaction_raw` (client.py lines 71-73): the
decoded result is fed straight into `SimulationResult(**result)` with no
`None` check, so a `null` result hits `**None` and raises `TypeError`. -/
def simulate_transaction_raw (resp : Json) : Except CallError SimulationResult :=
  match rpcDecode resp with
  | Except.error (RpcFail.rpcError e) => Except.error (CallError.rpc e)
  | Except.error RpcFail.nonObject => Except.error CallError.badResponse
  | Except.ok (Json.obj kw) => (mkSimulationResult kw).mapError CallError.typeError
  | Except.ok _ => Except.error (CallError.typeError PyTypeError.notAMapping)

/-- `GarpClient.get_balance` (client.py lines 76-77): the decoded `result`
value is returned unchanged, whatever it is. -/
def get_balance (resp : Json) : Except CallError Json :=
  match rpcDecode resp with
  | Except.error (RpcFail.rpcError e) => Except.error (CallError.rpc e)
  | Except.error RpcFail.nonObject => Except.error CallError.badResponse
  | Except.ok v => Except.ok v

/-- `GarpClient.initiate_bridge_transfer` response handling (client.py lines
115-119), as a function of the decoded REST response body: a falsy
`success` raises an exception carrying `result.get("error")`, otherwise
`result["data"]["bridge_tx_id"]` is returned (a missing key raises
`KeyError` and subscripting a non-dict raises `TypeError`; both escape the
call, collapsed to `keyError` here). -/
def initiate_bridge_transfer (resp : Json) : Except CallError Json :=
  match resp with
  | Json.obj fields =>
      if pyTruthy ((lookupField fields "success").getD Json.null) then
        match lookupField fields "data" with
        | some (Json.obj dataFields) =>
            match lookupField dataFields "bridge_tx_id" with
            | some v => Except.ok v
            | none => Except.error CallError.keyError
        | _ => Except.error CallError.keyError
      else
        Except.error (CallError.bridgeError ((lookupField fields "error").getD Json.null))
  | _ => Except.error CallError.badResponse

/-- `GarpClient.get_bridge_transfer_status` response handling (client.py
lines 129-133): a falsy `success` raises an exception carrying
`result.get("error")`, otherwise `result["data"]` is returned (missing key
raises `KeyError`). -/
def get_bridge_transfer_status (resp : Json) : Except CallError Json :=
  match resp with
  | Json.obj fields =>
      if pyTruthy ((lookupField fields "success").getD Json.null) then
        match lookupField fields "data" with
        | some v => Except.ok v
        | none => Except.error CallError.keyError
      else
        Except.error (CallError.bridgeError ((lookupField fields "error").getD Json.null))
  | _ => Except.error CallError.badResponse

/-- `GarpClient.add_asset_mapping` response handling (client.py lines
159-160): it simply returns `result.get("success", False)` — a `success:
false` response is an ordinary return value, no exception is raised and the
`error` field is never read. -/
def add_asset_mapping (resp : Json) : Except CallError Json :=
  match resp with
  | Json.obj fields => Except.ok ((lookupField fields "success").getD (Json.bool false))
  | _ => Except.error CallError.badResponse

/-- `GarpClient.get_asset_mapping` response handling (client.py lines
175-179): a falsy `success` returns `None` (no exception, the `error` field
is never read), otherwise `result["data"]` is returned. -/
def get_asset_mapping (resp : Json) : Except CallError Json :=
  match resp with
  | Json.obj fields =>
      if pyTruthy ((lookupField fields "success").getD Json.null) then
        match lookupField fields "data" with
        | some v => Except.ok v
        | none => Except.error CallError.keyError
      else
        Except.ok Json.null
  | _ => Except.error CallError.badResponse

/-- The sequence of request ids a client places in the envelopes of a list
of single (non-batch) RPC calls, in issuance order. -/
def singleCallIds (calls : List RpcCall) : List Json :=
  calls.map (fun c => (envelopeField (rpcPayload c.method c.params) "id").getD Json.null)

/-- The sequence of request ids placed in one batch payload, in order. -/
def batchIds (calls : List RpcCall) : List Json :=
  (batchPayload calls).map (fun e => (envelopeField e "id").getD Json.null)

/-- A three-element batch response in which the second element carries a
server error and the first and third carry the results 1 and 3. -/
def mixedBatchResponse : List Json :=
  [Json.obj [("id", Json.num 1), ("result", Json.num 1)],
   Json.obj [("id", Json.num 2),
             ("error", Json.obj [("code", Json.num (-32000)), ("message", Json.str "boom")])],
   Json.obj [("id", Json.num 3), ("result", Json.num 3)]]

/-- The same batch response with the failing element replaced by a
successful element whose result is null. -/
def allOkBatchResponse : List Json :=
  [Json.obj [("id", Json.num 1), ("result", Json.num 1)],
   Json.obj [("id", Json.num 2), ("result", Json.null)],
   Json.obj [("id", Json.num 3), ("result", Json.num 3)]]

/-- A REST bridge response reporting failure together with its error text. -/
def bridgeFailureResponse : Json :=
  Json.obj [("success", Json.bool false), ("error", Json.str "asset mapping rejected")]

/-- A key that fails the `hasKey` membership test is not found by
`lookupField`. -/
theorem lookupField_eq_none : ∀ (kw : List (String × Json)) (key : String),
    hasKey kw key = false → lookupField kw key = none
  | [], _, _ => rfl
  | (k, v) :: rest, key, h => by
      simp only [hasKey, List.any_cons, Bool.or_eq_false_iff] at h
      simp only [lookupField, h.1, Bool.false_eq_true, if_false]
      exact lookupField_eq_none rest key (by simpa [hasKey] using h.2)

/-- A response object with no `error` key and an explicit `result` field
decodes to that field's value. -/
theorem rpcDecode_of_result (fields : List (String × Json)) (v : Json)
    (hne : hasKey fields "error" = false)
    (hr : lookupField fields "result" = some v) :
    rpcDecode (Json.obj fields) = Except.ok v := by
  simp [rpcDecode, hne, hr]

/-- The ids of the envelopes produced by the batch loop started at index
`i` are `i + 1, i + 2, ...` in order. -/
theorem batchPayloadFrom_ids : ∀ (i : Nat) (calls : List RpcCall),
    (batchPayloadFrom i calls).map (fun e => (envelopeField e "id").getD Json.null)
      = (List.range calls.length).map (fun j => Json.num (Int.ofNat (i + j + 1)))
  | _, [] => rfl
  | i, c :: cs => by
      simp only [batchPayloadFrom, List.map_cons, List.length_cons,
        List.range_succ_eq_map, List.map_map]
      refine congrArg₂ List.cons ?_ ?_
      · show Json.num (Int.ofNat (i + 1)) = Json.num (Int.ofNat (i + 0 + 1))
        rfl
      · rw [batchPayloadFrom_ids (i + 1) cs]
        refine congrArg₂ List.map ?_ rfl
        funext j
        show Json.num (Int.ofNat (i + 1 + j + 1)) = Json.num (Int.ofNat (i + (j + 1) + 1))
        have : i + 1 + j + 1 = i + (j + 1) + 1 := by omega
        rw [this]

/-- Claim C1: the claim is false on the code.  A client that issues the two
single calls `getSlot` then `getSlotLeader` places the id 1 in both
envelopes — `GarpClient._rpc` hardcodes `"id": 1` and never increments —
whereas the claim requires the ids 1, 2. -/
theorem C1_counterexample :
    singleCallIds [⟨"getSlot", none⟩, ⟨"getSlotLeader", none⟩] = [Json.num 1, Json.num 1] ∧
    ¬ singleCallIds [⟨"getSlot", none⟩, ⟨"getSlotLeader", none⟩] = [Json.num 1, Json.num 2] := by
  have h1 : singleCallIds [⟨"getSlot", none⟩, ⟨"getSlotLeader", none⟩]
      = [Json.num 1, Json.num 1] := rfl
  refine ⟨h1, ?_⟩
  rw [h1]
  simp

/-- Claim C1 amended: the request id never increases — every single-call
envelope carries the constant id 1 no matter how many calls preceded it,
and only within one `batch` invocation of N calls are the envelope ids
1..N in order (they restart at 1 for every batch). -/
theorem C1_amended (calls bcalls : List RpcCall) :
    singleCallIds calls = calls.map (fun _ => Json.num 1) ∧
    batchIds bcalls = (List.range bcalls.length).map (fun j => Json.num (Int.ofNat (j + 1))) := by
  constructor
  · have h : (fun c : RpcCall =>
        (envelopeField (rpcPayload c.method c.params) "id").getD Json.null)
        = fun _ : RpcCall => Json.num 1 := by
      funext c
      rfl
    rw [singleCallIds, h]
  · rw [batchIds, batchPayload, batchPayloadFrom_ids 0 bcalls]
    refine congrArg₂ List.map ?_ rfl
    funext j
    have : 0 + j + 1 = j + 1 := by omega
    rw [this]

/-- Claim C2: the claim is false on the code.  Encoding `getSlot` with no
parameters produces an envelope whose `params` key is present and bound to
the empty array — exactly the representation the claim rules out
(`params or []` never omits the field). -/
theorem C2_counterexample :
    envelopeField (rpcPayload "getSlot" none) "params" = some (Json.arr []) ∧
    ¬ envelopeField (rpcPayload "getSlot" none) "params" = none := by
  have h1 : envelopeField (rpcPayload "getSlot" none) "params" = some (Json.arr []) := rfl
  refine ⟨h1, ?_⟩
  rw [h1]
  simp

/-- Claim C2 amended: the encoder always sets `jsonrpc` to "2.0", and the
`params` field is always present — bound to the empty array when the caller
supplies no parameters — both in single-call and in batch envelopes. -/
theorem C2_amended (m : String) (ps : Option (List Json)) (i : Nat) (c : RpcCall) :
    envelopeField (rpcPayload m ps) "jsonrpc" = some (Json.str "2.0") ∧
    envelopeField (rpcPayload m ps) "params" = some (Json.arr (ps.getD [])) ∧
    envelopeField (batchEnvelope i c) "jsonrpc" = some (Json.str "2.0") ∧
    envelopeField (batchEnvelope i c) "params" = some (Json.arr (c.params.getD [])) :=
  ⟨rfl, rfl, rfl, rfl⟩

/-- Claim C3: the claim is false on the code.  On a batch of 3 calls whose
2nd response element carries a server error, `batch` does not report an
error at position 1: it returns the element's absent `result` field as
null, the very same output it produces when the 2nd element is a
successful call whose result is null — the error is silently collapsed
into a non-error value. -/
theorem C3_counterexample :
    batchDecode mixedBatchResponse = some [Json.num 1, Json.null, Json.num 3] ∧
    batchDecode mixedBatchResponse = batchDecode allOkBatchResponse :=
  ⟨rfl, rfl⟩

/-- Claim C3 amended: `batch` returns one value per response element,
each extracted independently from its own element's `result` field (so
there is indeed never a single aggregate failure), but an element carrying
a server error contributes null — indistinguishable from a successful null
result — rather than an error outcome. -/
theorem C3_amended : ∀ results : List (List (String × Json)),
    batchDecode (results.map Json.obj)
      = some (results.map (fun fields => (lookupField fields "result").getD Json.null))
  | [] => rfl
  | r :: rs => by
      simp only [List.map_cons, batchDecode, C3_amended rs]

/-- Claim C4: confirmed.  Whenever the decoded response object contains an
`error` key, `_rpc` raises carrying the server's error value verbatim —
uniformly in that value, so there is no code-specific handling — and this
happens before `result` is ever read, so when both keys are present the
error takes precedence. -/
theorem C4_confirmed (fields : List (String × Json))
    (h : hasKey fields "error" = true) :
    rpcDecode (Json.obj fields)
      = Except.error (RpcFail.rpcError ((lookupField fields "error").getD Json.null)) := by
  simp [rpcDecode, h]

/-- Witness for C4: a response carrying both an error (code 5, message "m")
and a result 7 fails with exactly that error object. -/
theorem C4_witness :
    rpcDecode (Json.obj [("error", Json.obj [("code", Json.num 5), ("message", Json.str "m")]),
                         ("result", Json.num 7)])
      = Except.error (RpcFail.rpcError
          (Json.obj [("code", Json.num 5), ("message", Json.str "m")])) :=
  C4_confirmed [("error", Json.obj [("code", Json.num 5), ("message", Json.str "m")]),
                ("result", Json.num 7)] rfl

/-- Claim C5: confirmed.  When the server's response carries `result` null,
`get_block_by_slot`, `get_block_by_hash` and `get_transaction` all return
the absent value (`None`) — the null is short-circuited before any mapping
into `BlockInfo` or `TransactionInfo` is attempted, so no decode error can
arise. -/
theorem C5_confirmed (fields : List (String × Json))
    (hne : hasKey fields "error" = false)
    (hr : lookupField fields "result" = some Json.null) :
    get_block_by_slot (Json.obj fields) = Except.ok none ∧
    get_block_by_hash (Json.obj fields) = Except.ok none ∧
    get_transaction (Json.obj fields) = Except.ok none := by
  have hd : rpcDecode (Json.obj fields) = Except.ok Json.null :=
    rpcDecode_of_result fields Json.null hne hr
  have h1 : get_block_by_slot (Json.obj fields) = Except.ok none := by
    unfold get_block_by_slot
    rw [hd]
  have h3 : get_transaction (Json.obj fields) = Except.ok none := by
    unfold get_transaction
    rw [hd]
  exact ⟨h1, h1, h3⟩

/-- Witness for C5: the concrete response `{"id": 1, "result": null}` makes
all three lookups return the absent value. -/
theorem C5_witness :
    get_block_by_slot (Json.obj [("id", Json.num 1), ("result", Json.null)]) = Except.ok none ∧
    get_block_by_hash (Json.obj [("id", Json.num 1), ("result", Json.null)]) = Except.ok none ∧
    get_transaction (Json.obj [("id", Json.num 1), ("result", Json.null)]) = Except.ok none :=
  C5_confirmed [("id", Json.num 1), ("result", Json.null)] rfl rfl

/-- Claim C6: the claim is false on the code.  An unknown extra field is
not ignored: mapping `{"slot": 5, "hash": "0xabc", "extra": 1}` into
`BlockInfo` raises `TypeError: unexpected keyword argument` instead of
producing the same record as the object without `"extra"`. -/
theorem C6_counterexample :
    mkBlockInfo [("slot", Json.num 5), ("hash", Json.str "0xabc"), ("extra", Json.num 1)]
      = Except.error (PyTypeError.unexpectedKw "extra") ∧
    ¬ mkBlockInfo [("slot", Json.num 5), ("hash", Json.str "0xabc"), ("extra", Json.num 1)]
      = mkBlockInfo [("slot", Json.num 5), ("hash", Json.str "0xabc")] := by
  have h1 : mkBlockInfo [("slot", Json.num 5), ("hash", Json.str "0xabc"), ("extra", Json.num 1)]
      = Except.error (PyTypeError.unexpectedKw "extra") := rfl
  have h2 : mkBlockInfo [("slot", Json.num 5), ("hash", Json.str "0xabc")]
      = Except.ok { slot := Json.num 5, hash := Json.str "0xabc" } := rfl
  refine ⟨h1, ?_⟩
  rw [h1, h2]
  simp

/-- Claim C6 amended: an unknown extra field is not ignored but causes a
`TypeError` naming that field; a missing required field (here
`BlockInfo.slot`) causes a `TypeError` naming the missing field; and
`{"slot": 5, "hash": "0xabc"}` decodes to a `BlockInfo` with slot 5, hash
"0xabc" and every optional field absent (`None`). -/
theorem C6_amended (rest : List (String × Json)) (k : String) (v : Json)
    (kw : List (String × Json))
    (hk : blockInfoKeys.contains k = false)
    (hall : kw.all (fun p => blockInfoKeys.contains p.1) = true)
    (hslot : hasKey kw "slot" = false) :
    mkBlockInfo ((k, v) :: rest) = Except.error (PyTypeError.unexpectedKw k) ∧
    mkBlockInfo kw = Except.error (PyTypeError.missingArg "slot") ∧
    mkBlockInfo [("slot", Json.num 5), ("hash", Json.str "0xabc")]
      = Except.ok { slot := Json.num 5, hash := Json.str "0xabc" } := by
  refine ⟨?_, ?_, rfl⟩
  · have hp : (!(blockInfoKeys.contains (k, v).1)) = true := by
      rw [hk]
      rfl
    have hf : ((k, v) :: rest).find? (fun p => !(blockInfoKeys.contains p.1)) = some (k, v) :=
      List.find?_cons_of_pos rest hp
    unfold mkBlockInfo
    rw [hf]
  · have hf : kw.find? (fun p => !(blockInfoKeys.contains p.1)) = none := by
      rw [List.find?_eq_none]
      intro p hp
      have hmem := List.all_eq_true.mp hall p hp
      simp only [hmem, Bool.not_true]
      exact Bool.false_ne_true
    have hl : lookupField kw "slot" = none := lookupField_eq_none kw "slot" hslot
    unfold mkBlockInfo
    rw [hf, hl]

/-- Witness for C6: the extra field `"bogus"` is rejected by name, the
object `{"hash": "0xabc"}` missing `slot` fails naming `slot`, and the
claim's concrete example decodes with all optional fields null. -/
theorem C6_witness :
    blockInfoKeys.contains "bogus" = false ∧
    ([("hash", Json.str "0xabc")] : List (String × Json)).all
      (fun p => blockInfoKeys.contains p.1) = true ∧
    hasKey [("hash", Json.str "0xabc")] "slot" = false ∧
    (mkBlockInfo [("bogus", Json.null)] = Except.error (PyTypeError.unexpectedKw "bogus") ∧
     mkBlockInfo [("hash", Json.str "0xabc")] = Except.error (PyTypeError.missingArg "slot") ∧
     mkBlockInfo [("slot", Json.num 5), ("hash", Json.str "0xabc")]
       = Except.ok { slot := Json.num 5, hash := Json.str "0xabc" }) :=
  ⟨rfl, rfl, rfl,
   C6_amended [] "bogus" Json.null [("hash", Json.str "0xabc")] rfl rfl rfl⟩

/-- Claim C7: the claim is false on the code.  On the failure response
`{"success": false, "error": "asset mapping rejected"}`, two of the four
bridge operations do not raise: `add_asset_mapping` returns the ordinary
value `False` and `get_asset_mapping` returns `None`, in both cases
dropping the response's `error` field. -/
theorem C7_counterexample :
    add_asset_mapping bridgeFailureResponse = Except.ok (Json.bool false) ∧
    get_asset_mapping bridgeFailureResponse = Except.ok Json.null :=
  ⟨rfl, rfl⟩

/-- Claim C7 amended: on a `success: false` response only
`initiate_bridge_transfer` and `get_bridge_transfer_status` fail explicitly
carrying the response's `error` field; `add_asset_mapping` returns the
response's falsy `success` value and `get_asset_mapping` returns `None`,
both as ordinary non-error values that never read `error`. -/
theorem C7_amended (fields : List (String × Json))
    (hs : pyTruthy ((lookupField fields "success").getD Json.null) = false) :
    initiate_bridge_transfer (Json.obj fields)
      = Except.error (CallError.bridgeError ((lookupField fields "error").getD Json.null)) ∧
    get_bridge_transfer_status (Json.obj fields)
      = Except.error (CallError.bridgeError ((lookupField fields "error").getD Json.null)) ∧
    add_asset_mapping (Json.obj fields)
      = Except.ok ((lookupField fields "success").getD (Json.bool false)) ∧
    get_asset_mapping (Json.obj fields) = Except.ok Json.null := by
  refine ⟨?_, ?_, rfl, ?_⟩
  · simp [initiate_bridge_transfer, hs]
  · simp [get_bridge_transfer_status, hs]
  · simp [get_asset_mapping, hs]

/-- Witness for C7: the concrete failure response with error text "boom"
drives all four operations to the amended outcomes. -/
theorem C7_witness :
    pyTruthy ((lookupField [("success", Json.bool false), ("error", Json.str "boom")]
      "success").getD Json.null) = false ∧
    (initiate_bridge_transfer (Json.obj [("success", Json.bool false), ("error", Json.str "boom")])
      = Except.error (CallError.bridgeError (Json.str "boom")) ∧
     get_bridge_transfer_status (Json.obj [("success", Json.bool false), ("error", Json.str "boom")])
      = Except.error (CallError.bridgeError (Json.str "boom")) ∧
     add_asset_mapping (Json.obj [("success", Json.bool false), ("error", Json.str "boom")])
      = Except.ok (Json.bool false) ∧
     get_asset_mapping (Json.obj [("success", Json.bool false), ("error", Json.str "boom")])
      = Except.ok Json.null) :=
  ⟨rfl, C7_amended [("success", Json.bool false), ("error", Json.str "boom")] rfl⟩

/-- Claim C8: confirmed.  `get_balance` returns the decoded `result` value
unchanged, so a server-supplied integer balance — modelled as an unbounded
`Int`, matching Python's arbitrary-precision ints — comes back exactly
equal, with no truncation or overflow at any magnitude. -/
theorem C8_confirmed (fields : List (String × Json)) (n : Int)
    (hne : hasKey fields "error" = false)
    (hr : lookupField fields "result" = some (Json.num n)) :
    get_balance (Json.obj fields) = Except.ok (Json.num n) := by
  have hd : rpcDecode (Json.obj fields) = Except.ok (Json.num n) :=
    rpcDecode_of_result fields (Json.num n) hne hr
  unfold get_balance
  rw [hd]

/-- Witness for C8: the balance 18446744073709551616, which exceeds the
64-bit unsigned range, is returned exactly. -/
theorem C8_witness :
    get_balance (Json.obj [("id", Json.num 1), ("result", Json.num 18446744073709551616)])
      = Except.ok (Json.num 18446744073709551616) :=
  C8_confirmed [("id", Json.num 1), ("result", Json.num 18446744073709551616)]
    18446744073709551616 rfl rfl

/-- Claim C9: confirmed.  Encoding any request and then decoding a server
echo `{"id": <the request's id>, "result": X}` yields X unchanged, for
every JSON value X (null, integer, string, object and array included). -/
theorem C9_confirmed (m : String) (ps : Option (List Json)) (X : Json) :
    rpcDecode (Json.obj [("id", (envelopeField (rpcPayload m ps) "id").getD Json.null),
                         ("result", X)])
      = Except.ok X := rfl

/-- Claim C10: confirmed.  `simulate_transaction_raw` has no null
short-circuit: when the response carries `result` null, the decoded `None`
is fed to `SimulationResult(**result)` and the call fails with the
unstructured `TypeError` of unpacking a non-mapping — not with an absent
value and not with a structured decode error. -/
theorem C10_confirmed (fields : List (String × Json))
    (hne : hasKey fields "error" = false)
    (hr : lookupField fields "result" = some Json.null) :
    simulate_transaction_raw (Json.obj fields)
      = Except.error (CallError.typeError PyTypeError.notAMapping) := by
  have hd : rpcDecode (Json.obj fields) = Except.ok Json.null :=
    rpcDecode_of_result fields Json.null hne hr
  unfold simulate_transaction_raw
  rw [hd]

/-- Witness for C10: the concrete response `{"id": 1, "result": null}`
makes `simulate_transaction_raw` fail with the unpacking `TypeError`. -/
theorem C10_witness :
    simulate_transaction_raw (Json.obj [("id", Json.num 1), ("result", Json.null)])
      = Except.error (CallError.typeError PyTypeError.notAMapping) :=
  C10_confirmed [("id", Json.num 1), ("result", Json.null)] rfl rfl
